import Mathlib

/-!
Shallow embedding of the vendor-identity core of the sayido_app client:
the session store (`src/lib/vendor-session.ts`), the identity-resolution
fallback chain repeated across the tab screens (`src/app/(tabs)/index.tsx`
and its clones), the login screen's email lookup (`src/unnamed/part_000`),
and the JWT payload decoder (`extractVendorIdFromJwt`, `src/unnamed/part_001`).

JavaScript strings are Lean `String`s (internally `List Char`).  The two
environment builtins the decoder calls through its try/catch — `atob` and
`JSON.parse` — are modelled by executable Lean functions (`atobChars`,
`jsonParse`) returning `Option`, where `none` stands for the builtin
throwing.  Session objects distinguish an absent key from a key that is
present and holds `undefined`, because the object-spread in
`setVendorSession` treats the two differently.
-/

/-- Value held under one key of a session object literal: JavaScript
`undefined`, or a string. -/
inductive JSVal where
  | undef
  | str (s : String)
deriving DecidableEq, Repr

/-- JavaScript truthiness of a session field value: `undefined` and the
empty string are falsy. -/
def JSVal.truthy : JSVal → Bool
  | .undef => false
  | .str s => s ≠ ""

/-- A JavaScript object restricted to the two `VendorSession` keys.
`none` means the key is absent; `some .undef` means the key is present
holding `undefined` (as produced by spreading a patch with an explicitly
`undefined` field). -/
structure JSObj where
  vendorId : Option JSVal := none
  email : Option JSVal := none
deriving DecidableEq, Repr

/-- Truthiness of a property access `obj.key`: an absent key reads as
`undefined`, hence falsy. -/
def fieldTruthy : Option JSVal → Bool
  | some v => v.truthy
  | none => false

/-- One key of the object-spread `{...base, ...patch}`: the patch wins
whenever it has the key, even with an `undefined` value. -/
def overlay (base patch : Option JSVal) : Option JSVal :=
  match patch with
  | some v => some v
  | none => base

/-- The object-spread `{...base, ...patch}` on the two session keys. -/
def jsSpread (base patch : JSObj) : JSObj :=
  { vendorId := overlay base.vendorId patch.vendorId
    email := overlay base.email patch.email }

/-- A JSON value found in durable storage under the session key, projected
onto the two session fields.  `nonObj` covers raw strings that fail
`JSON.parse` and parses whose result is not a truthy object (`null`,
numbers, strings, booleans); `readStorage` returns `{}` for all of those.
The screens only ever store `JSON.stringify` of a session object, whose
fields are strings or dropped, so object fields are `Option String`. -/
inductive StoredJson where
  | obj (vendorId email : Option String)
  | nonObj
deriving DecidableEq, Repr

/-- State of the durable `localStorage` collaborator.  `available` models
`typeof localStorage !== "undefined"`; the three failure flags model the
`try`/`catch` blocks around `getItem`, `setItem` and `removeItem` in
`src/lib/vendor-session.ts` (each catch swallows the error). -/
structure StorageState where
  available : Bool
  item : Option StoredJson
  getFails : Bool
  setFails : Bool
  removeFails : Bool
deriving DecidableEq, Repr

/-- The `readStorage` helper: `{}` when storage is unavailable, the read
throws, the key is absent, or the parse does not yield a truthy object. -/
def readStorage (s : StorageState) : JSObj :=
  if s.available = false then {}
  else if s.getFails then {}
  else
    match s.item with
    | none => {}
    | some (StoredJson.obj v e) => { vendorId := v.map JSVal.str, email := e.map JSVal.str }
    | some StoredJson.nonObj => {}

/-- Projection performed by `JSON.stringify` on a session field: string
values survive, `undefined` values (and absent keys) are dropped. -/
def projStr : Option JSVal → Option String
  | some (JSVal.str s) => some s
  | _ => none

/-- The `writeStorage` helper: best-effort `setItem` of the serialized
object; unavailability and thrown errors leave storage unchanged. -/
def writeStorage (s : StorageState) (v : JSObj) : StorageState :=
  if s.available = false then s
  else if s.setFails then s
  else { s with item := some (StoredJson.obj (projStr v.vendorId) (projStr v.email)) }

/-- Best-effort `removeItem` as performed by `clearVendorSession`. -/
def removeStorageItem (s : StorageState) : StorageState :=
  if s.available = false then s
  else if s.removeFails then s
  else { s with item := none }

/-- Process state of the session store: the in-memory singleton
(`globalThis[SESSION_KEY] || {}`) and the durable storage tier. -/
structure SessionState where
  memory : JSObj
  storage : StorageState
deriving DecidableEq, Repr

/-- The exported `getVendorSession`: return memory if it has any truthy
field, otherwise rehydrate from storage when that yields a truthy field
(also writing it back to memory), otherwise `{}`.  Returns the read value
together with the possibly-updated process state. -/
def getVendorSession (st : SessionState) : JSObj × SessionState :=
  let memory := st.memory
  if fieldTruthy memory.vendorId || fieldTruthy memory.email then (memory, st)
  else
    let stored := readStorage st.storage
    if fieldTruthy stored.vendorId || fieldTruthy stored.email then
      (stored, { st with memory := stored })
    else ({}, st)

/-- The exported `setVendorSession`: shallow-merge the patch over the
current read, write memory unconditionally, best-effort write storage. -/
def setVendorSession (next : JSObj) (st : SessionState) : SessionState :=
  let r := getVendorSession st
  let merged := jsSpread r.1 next
  let st1 := { r.2 with memory := merged }
  { st1 with storage := writeStorage st1.storage merged }

/-- The exported `clearVendorSession`: reset memory to `{}` and
best-effort remove the durable entry. -/
def clearVendorSession (st : SessionState) : SessionState :=
  let st1 := { st with memory := ({} : JSObj) }
  { st1 with storage := removeStorageItem st1.storage }

/-- Characters stripped by JavaScript `String.prototype.trim` (the ASCII
ones plus NBSP and BOM; the emails the claims exercise are ASCII). -/
def jsWsChar (c : Char) : Bool :=
  c = ' ' || c = '\t' || c = '\n' || c = '\r' ||
  c = '\u000B' || c = '\u000C' || c = ' ' || c = '﻿'

/-- JavaScript `trim` on a character list. -/
def jsTrimList (l : List Char) : List Char :=
  ((l.dropWhile jsWsChar).reverse.dropWhile jsWsChar).reverse

/-- JavaScript `s.trim()`. -/
def jsTrim (s : String) : String :=
  String.mk (jsTrimList s.data)

/-- JavaScript `s.toLowerCase()`, adequate for the ASCII emails the code
compares (`Char.toLower` lowers exactly the ASCII uppercase range). -/
def jsToLowerCase (s : String) : String :=
  String.mk (s.data.map Char.toLower)

/-- The screens' `toText` helper at its default fallback `""`:
`typeof value === "string" && value.trim() ? value : ""`.  `none` stands
for a value that is absent, `null`, or otherwise not a string. -/
def toText (value : Option String) : String :=
  match value with
  | some s => if jsTrim s ≠ "" then s else ""
  | none => ""

/-- JavaScript `a || b` for a string `a` (empty string is falsy). -/
def jsOrStr (a b : String) : String :=
  if a ≠ "" then a else b

/-- JavaScript `x || next` where `x` is an optional string (absent or
non-string values fall through, as does the empty string).  Also models
the `(typeof p === "string" && p) || next` guards on route parameters. -/
def jsOr (v : Option String) (next : String) : String :=
  match v with
  | some s => if s ≠ "" then s else next
  | none => next

/-- JavaScript `session.field || next` for a session object field. -/
def jsFieldOr (v : Option JSVal) (next : String) : String :=
  match v with
  | some (JSVal.str s) => if s ≠ "" then s else next
  | _ => next

/-- One entry of the GraphQL `findAllVendors` list, with `none` for
absent, `null` or non-string fields. -/
structure VendorRec where
  id : Option String
  email : Option String
deriving DecidableEq, Repr

/-- Pure core of the dashboard's `loadVendorIdByEmail`
(`src/app/(tabs)/index.tsx:132`), taking the `findAllVendors` payload it
would have fetched (`none` when `data.findAllVendors` is not an array).
With no email to match it returns the first entry's id; otherwise it
matches case-insensitively (the target email trimmed, vendor emails
passed through `toText` untrimmed) and falls back to the first entry. -/
def loadVendorIdByEmail (vendorsData : Option (List VendorRec)) (email : String) : String :=
  let vendors := vendorsData.getD []
  if jsTrim email = "" then toText (vendors.head?.bind VendorRec.id)
  else
    let target := jsToLowerCase (jsTrim email)
    let matched := vendors.find? (fun vendor => jsToLowerCase (toText vendor.email) == target)
    jsOrStr (toText (matched.bind VendorRec.id)) (toText (vendors.head?.bind VendorRec.id))

/-- Outcome of the single GraphQL round trip the dashboard resolution may
perform, as seen through `graphQlRequest`: every failure path of
`graphQlRequest` (missing URL, fetch rejection, non-2xx status, non-empty
`errors`, missing `data`) throws, collapsed here into `Except.error` with
the thrown message; `Except.ok` carries `data.findAllVendors` (`none`
when it is not an array).  `cookieVendorId` is the value
`readVendorIdFromCookie` would return (that helper is total and never
throws). -/
structure DashboardEnv where
  findAllVendors : Except String (Option (List VendorRec))
  cookieVendorId : String
deriving Repr

/-- Result of one dashboard resolution, instrumented with whether the
backend-lookup strategy and the cookie-decode strategy were invoked. -/
structure ResolveTrace where
  result : Except String String
  backendInvoked : Bool
  cookieInvoked : Bool
deriving Repr

/-- The dashboard resolution expression
`vendorId || (await loadVendorIdByEmail(vendorEmail)) || readVendorIdFromCookie()`
(`src/app/(tabs)/index.tsx:285`).  `||` short-circuits left to right; a
throw from `loadVendorIdByEmail` aborts the whole expression (there is no
catch between it and the caller). -/
def resolveDashboardVendorId (hint vendorEmail : String) (env : DashboardEnv) : ResolveTrace :=
  if hint ≠ "" then
    { result := Except.ok hint, backendInvoked := false, cookieInvoked := false }
  else
    match env.findAllVendors with
    | Except.error msg =>
      { result := Except.error msg, backendInvoked := true, cookieInvoked := false }
    | Except.ok vendorsData =>
      let fromBackend := loadVendorIdByEmail vendorsData vendorEmail
      if fromBackend ≠ "" then
        { result := Except.ok fromBackend, backendInvoked := true, cookieInvoked := false }
      else
        { result := Except.ok env.cookieVendorId, backendInvoked := true, cookieInvoked := true }

/-- The string-typed route parameters the dashboard inspects; `none`
stands for an absent parameter or one carrying a non-string value, which
the `typeof p === "string"` guards treat alike. -/
structure DashboardParams where
  vendor_id : Option String := none
  vendorId : Option String := none
  id : Option String := none
  vendor_email : Option String := none
  email : Option String := none
deriving DecidableEq, Repr

/-- The hint assembly of `src/app/(tabs)/index.tsx:266`:
`params.vendor_id || params.vendorId || params.id || session.vendorId ||
process.env.EXPO_PUBLIC_VENDOR_ID || ""`. -/
def dashboardVendorId (params : DashboardParams) (session : JSObj)
    (envVendorId : Option String) : String :=
  jsOr params.vendor_id (jsOr params.vendorId (jsOr params.id
    (jsFieldOr session.vendorId (jsOr envVendorId ""))))

/-- The email assembly of `src/app/(tabs)/index.tsx:274`. -/
def dashboardVendorEmail (params : DashboardParams) (session : JSObj) : String :=
  jsOr params.vendor_email (jsOr params.email (jsFieldOr session.email ""))

/-- Observable outcome of `loadDashboardData`: `resolved id` means the
guard passed and both downstream queries (`loadVendorAnalytics` and
`loadVendorPayments`) are issued with exactly `id` (after the session
merge); `error msg` means the outer catch set `errorMessage := msg` and
no data query was issued. -/
inductive DashboardOutcome where
  | resolved (vendorId : String)
  | error (message : String)
deriving DecidableEq, Repr

/-- The resolution-and-guard prefix of `loadDashboardData`
(`src/app/(tabs)/index.tsx:282`): resolve, throw
`"Could not resolve vendor id for analytics."` on an empty result, and
otherwise proceed to the data queries with the resolved id. -/
def loadDashboardData (params : DashboardParams) (session : JSObj)
    (envVendorId : Option String) (env : DashboardEnv) : DashboardOutcome :=
  let hint := dashboardVendorId params session envVendorId
  let vendorEmail := dashboardVendorEmail params session
  match (resolveDashboardVendorId hint vendorEmail env).result with
  | Except.error msg => DashboardOutcome.error msg
  | Except.ok resolvedVendorId =>
    if resolvedVendorId = "" then
      DashboardOutcome.error "Could not resolve vendor id for analytics."
    else DashboardOutcome.resolved resolvedVendorId

/-- Shape of the `findAllVendors` HTTP response as the login screen of
`src/unnamed/part_000` sees it: `response.ok`, whether
`payload.errors?.length` is truthy, and `payload.data?.findAllVendors`
when it is an array. -/
structure GqlListResponse where
  ok : Bool
  hasErrors : Bool
  vendors : Option (List VendorRec)
deriving Repr

/-- The login screen's `resolveVendorIdByEmail`
(`src/unnamed/part_000:80`).  Its body is wrapped in `try`/`catch`
returning `""`, so `response = none` (fetch or `json()` threw) yields
`""`; a non-2xx or error-carrying payload yields `""`; vendor emails are
trimmed and lowercased before comparison; an unmatched email yields `""`
with no first-entry fallback. -/
def resolveVendorIdByEmail (targetEmail graphQlUrl : String)
    (response : Option GqlListResponse) : String :=
  if jsTrim targetEmail = "" then ""
  else if graphQlUrl = "" then ""
  else
    match response with
    | none => ""
    | some r =>
      if r.ok = false || r.hasErrors then ""
      else
        let vendors := r.vendors.getD []
        let normalizedTarget := jsToLowerCase (jsTrim targetEmail)
        let matched := vendors.find? (fun vendor =>
          match vendor.email with
          | some e => jsToLowerCase (jsTrim e) == normalizedTarget
          | none => false)
        match matched with
        | some m =>
          match m.id with
          | some i => i
          | none => ""
        | none => ""

/-- Observable outcome of the login screen's `handleLogin`
(`src/unnamed/part_000:124`).  `navigated email vendorId` means the
screen called `setVendorSession({email, vendorId})` and navigated to the
tabs with those route parameters, with `errorMessage` left `""` —
whatever `vendorId` is, including the empty string. -/
inductive LoginScreenOutcome where
  | validationError (message : String)
  | failed (message : String)
  | navigated (email vendorId : String)
deriving DecidableEq, Repr

/-- The login screen's `handleLogin` (`src/unnamed/part_000:124`).
`loginResult` is the outcome of `loginVendor()` (which throws on every
failure path); `graphQlUrl`/`response` feed the email lookup.  Note the
resolved vendor id is not checked for emptiness before the session write
and navigation. -/
def handleLogin (email password : String) (loginResult : Except String Unit)
    (graphQlUrl : String) (response : Option GqlListResponse) : LoginScreenOutcome :=
  if jsTrim email = "" || jsTrim password = "" then
    LoginScreenOutcome.validationError "Please enter email and password."
  else
    match loginResult with
    | Except.error msg => LoginScreenOutcome.failed msg
    | Except.ok _ =>
      let normalizedEmail := jsTrim email
      let resolvedVendorId := resolveVendorIdByEmail normalizedEmail graphQlUrl response
      LoginScreenOutcome.navigated normalizedEmail resolvedVendorId

/-- JavaScript `token.split(".")` for a single-character separator:
splits at every occurrence, keeping empty segments, and yields `[""]` for
the empty string. -/
def splitOnChar (sep : Char) : List Char → List (List Char)
  | [] => [[]]
  | c :: rest =>
    match splitOnChar sep rest with
    | [] => [[]]
    | r :: rs => if c = sep then [] :: r :: rs else (c :: r) :: rs

/-- JavaScript `s.replace(/old/g, new)` for single characters. -/
def replaceChar (old new : Char) (l : List Char) : List Char :=
  l.map (fun c => if c = old then new else c)

/-- ASCII whitespace removed by the forgiving-base64 decode behind
`atob`: TAB, LF, FF, CR and SPACE. -/
def b64WsChar (c : Char) : Bool :=
  c = '\t' || c = '\n' || c = '\u000C' || c = '\r' || c = ' '

/-- Value of one character of the standard base64 alphabet, `none` for a
character outside it. -/
def b64Val (c : Char) : Option Nat :=
  if 'A' ≤ c ∧ c ≤ 'Z' then some (c.toNat - 65)
  else if 'a' ≤ c ∧ c ≤ 'z' then some (c.toNat - 97 + 26)
  else if '0' ≤ c ∧ c ≤ '9' then some (c.toNat - 48 + 52)
  else if c = '+' then some 62
  else if c = '/' then some 63
  else none

/-- Padding removal of the forgiving-base64 decode: when the length is a
multiple of four, up to two trailing `=` are dropped. -/
def stripB64Pad (l : List Char) : List Char :=
  if l.length % 4 = 0 then
    match l.reverse with
    | '=' :: '=' :: rest => rest.reverse
    | '=' :: rest => rest.reverse
    | _ => l
  else l

/-- Reassemble 6-bit groups into bytes; a trailing group of two or three
sextets yields one or two bytes, the leftover bits being discarded as the
forgiving decode prescribes. -/
def decodeSextets : List Nat → List Nat
  | a :: b :: c :: d :: rest =>
    (a * 4 + b / 16) :: ((b % 16) * 16 + c / 4) :: ((c % 4) * 64 + d) :: decodeSextets rest
  | [a, b] => [a * 4 + b / 16]
  | [a, b, c] => [a * 4 + b / 16, (b % 16) * 16 + c / 4]
  | _ => []

/-- Model of the environment builtin `atob` (forgiving-base64 decode):
strip ASCII whitespace, strip permissible `=` padding, reject a length
congruent to 1 mod 4 or any character outside the base64 alphabet
(`none` models the `InvalidCharacterError` throw), and otherwise decode
to the byte string. -/
def atobChars (input : List Char) : Option (List Char) :=
  let ws := input.filter (fun c => !(b64WsChar c))
  let data := stripB64Pad ws
  if data.length % 4 = 1 then none
  else
    match data.mapM b64Val with
    | none => none
    | some sextets => some ((decodeSextets sextets).map Char.ofNat)

/-- Character of the standard base64 alphabet for a sextet value. -/
def b64Char (n : Nat) : Char :=
  if n < 26 then Char.ofNat (65 + n)
  else if n < 52 then Char.ofNat (97 + (n - 26))
  else if n < 62 then Char.ofNat (48 + (n - 52))
  else if n = 62 then '+'
  else '/'

/-- Split bytes into 6-bit groups, the base64 encoding direction. -/
def bytesToSextets : List Nat → List Nat
  | a :: b :: c :: rest =>
    (a / 4) :: ((a % 4) * 16 + b / 16) :: ((b % 16) * 4 + c / 64) :: (c % 64) :: bytesToSextets rest
  | [a, b] => [a / 4, (a % 4) * 16 + b / 16, (b % 16) * 4]
  | [a] => [a / 4, (a % 4) * 16]
  | [] => []

/-- Unpadded base64url encoding of a byte string, as used for JSON Web
Token segments (`+`/`/` replaced by `-`/`_`, no `=` padding). -/
def b64urlEncode (l : List Char) : List Char :=
  (bytesToSextets (l.map Char.toNat)).map (fun n =>
    let c := b64Char n
    if c = '+' then '-' else if c = '/' then '_' else c)

/-- JSON values as produced by the environment builtin `JSON.parse`;
numbers keep their lexeme since no consumer inspects them. -/
inductive Json where
  | null
  | bool (b : Bool)
  | num (lexeme : List Char)
  | str (s : List Char)
  | arr (items : List Json)
  | obj (members : List (List Char × Json))
deriving Repr

/-- JSON insignificant whitespace. -/
def jsonWsChar (c : Char) : Bool :=
  c = ' ' || c = '\t' || c = '\n' || c = '\r'

/-- Skip JSON insignificant whitespace. -/
def skipJWs : List Char → List Char
  | c :: rest => if jsonWsChar c then skipJWs rest else c :: rest
  | [] => []

/-- Hexadecimal digit value for `\u` escapes. -/
def hexVal (c : Char) : Option Nat :=
  if '0' ≤ c ∧ c ≤ '9' then some (c.toNat - 48)
  else if 'a' ≤ c ∧ c ≤ 'f' then some (c.toNat - 97 + 10)
  else if 'A' ≤ c ∧ c ≤ 'F' then some (c.toNat - 65 + 10)
  else none

/-- Body of a JSON string after its opening quote: content up to the
closing quote and the remaining input, honouring the JSON escapes and
rejecting raw control characters. -/
def parseJString : Nat → List Char → Option (List Char × List Char)
  | 0, _ => none
  | fuel + 1, input =>
    match input with
    | [] => none
    | c :: rest =>
      if c = '"' then some ([], rest)
      else if c = '\\' then
        match rest with
        | [] => none
        | e :: rest2 =>
          if e = '"' ∨ e = '\\' ∨ e = '/' then
            (parseJString fuel rest2).map (fun p => (e :: p.1, p.2))
          else if e = 'b' then
            (parseJString fuel rest2).map (fun p => ('\u0008' :: p.1, p.2))
          else if e = 'f' then
            (parseJString fuel rest2).map (fun p => ('\u000C' :: p.1, p.2))
          else if e = 'n' then
            (parseJString fuel rest2).map (fun p => ('\n' :: p.1, p.2))
          else if e = 'r' then
            (parseJString fuel rest2).map (fun p => ('\r' :: p.1, p.2))
          else if e = 't' then
            (parseJString fuel rest2).map (fun p => ('\t' :: p.1, p.2))
          else if e = 'u' then
            match rest2 with
            | h1 :: h2 :: h3 :: h4 :: rest3 =>
              match hexVal h1, hexVal h2, hexVal h3, hexVal h4 with
              | some x1, some x2, some x3, some x4 =>
                (parseJString fuel rest3).map
                  (fun p => (Char.ofNat (((x1 * 16 + x2) * 16 + x3) * 16 + x4) :: p.1, p.2))
              | _, _, _, _ => none
            | _ => none
          else none
      else if c.toNat < 32 then none
      else (parseJString fuel rest).map (fun p => (c :: p.1, p.2))

/-- Longest digit run at the head of the input. -/
def takeDigits : List Char → List Char × List Char
  | c :: rest =>
    if c.isDigit then
      let p := takeDigits rest
      (c :: p.1, p.2)
    else ([], c :: rest)
  | [] => ([], [])

/-- Optional exponent part of a JSON number. -/
def parseJExp (lexeme : List Char) (input : List Char) : Option (Json × List Char) :=
  match input with
  | e :: rest =>
    if e = 'e' ∨ e = 'E' then
      let signAndRest :=
        match rest with
        | '+' :: r => (['+'], r)
        | '-' :: r => (['-'], r)
        | _ => (([] : List Char), rest)
      match signAndRest.2 with
      | d :: r2 =>
        if d.isDigit then
          let p := takeDigits r2
          some (Json.num (lexeme ++ e :: (signAndRest.1 ++ d :: p.1)), p.2)
        else none
      | [] => none
    else some (Json.num lexeme, input)
  | [] => some (Json.num lexeme, [])

/-- Optional fraction part of a JSON number. -/
def parseJFrac (lexeme : List Char) (input : List Char) : Option (Json × List Char) :=
  match input with
  | '.' :: rest =>
    match rest with
    | d :: r2 =>
      if d.isDigit then
        let p := takeDigits r2
        parseJExp (lexeme ++ '.' :: d :: p.1) p.2
      else none
    | [] => none
  | _ => parseJExp lexeme input

/-- A JSON number: optional minus, `0` or a nonzero-led digit run, then
fraction and exponent. -/
def parseJNumber (input : List Char) : Option (Json × List Char) :=
  let signAndRest :=
    match input with
    | '-' :: rest => (['-'], rest)
    | _ => (([] : List Char), input)
  match signAndRest.2 with
  | [] => none
  | c :: rest =>
    if c = '0' then parseJFrac (signAndRest.1 ++ ['0']) rest
    else if c.isDigit then
      let p := takeDigits rest
      parseJFrac (signAndRest.1 ++ c :: p.1) p.2
    else none

mutual

/-- One JSON value with leading whitespace, by fuel. -/
def parseJValue : Nat → List Char → Option (Json × List Char)
  | 0, _ => none
  | fuel + 1, input =>
    match skipJWs input with
    | [] => none
    | 'n' :: rest =>
      match rest with
      | 'u' :: 'l' :: 'l' :: r => some (Json.null, r)
      | _ => none
    | 't' :: rest =>
      match rest with
      | 'r' :: 'u' :: 'e' :: r => some (Json.bool true, r)
      | _ => none
    | 'f' :: rest =>
      match rest with
      | 'a' :: 'l' :: 's' :: 'e' :: r => some (Json.bool false, r)
      | _ => none
    | '"' :: rest =>
      (parseJString (rest.length + 1) rest).map (fun p => (Json.str p.1, p.2))
    | '[' :: rest =>
      (match skipJWs rest with
       | ']' :: r => some (Json.arr [], r)
       | _ => (parseJItems fuel rest).map (fun p => (Json.arr p.1, p.2)))
    | '{' :: rest =>
      (match skipJWs rest with
       | '}' :: r => some (Json.obj [], r)
       | _ => (parseJMembers fuel rest).map (fun p => (Json.obj p.1, p.2)))
    | c :: rest =>
      if c = '-' ∨ c.isDigit then parseJNumber (c :: rest) else none

/-- Comma-separated array items up to the closing bracket, by fuel. -/
def parseJItems : Nat → List Char → Option (List Json × List Char)
  | 0, _ => none
  | fuel + 1, input =>
    match parseJValue fuel input with
    | none => none
    | some (v, rest) =>
      match skipJWs rest with
      | ',' :: r => (parseJItems fuel r).map (fun p => (v :: p.1, p.2))
      | ']' :: r => some ([v], r)
      | _ => none

/-- Comma-separated object members up to the closing brace, by fuel. -/
def parseJMembers : Nat → List Char → Option (List (List Char × Json) × List Char)
  | 0, _ => none
  | fuel + 1, input =>
    match skipJWs input with
    | '"' :: rest =>
      match parseJString (rest.length + 1) rest with
      | none => none
      | some (key, rest2) =>
        match skipJWs rest2 with
        | ':' :: rest3 =>
          match parseJValue fuel rest3 with
          | none => none
          | some (v, rest4) =>
            match skipJWs rest4 with
            | ',' :: r => (parseJMembers fuel r).map (fun p => ((key, v) :: p.1, p.2))
            | '}' :: r => some ([(key, v)], r)
            | _ => none
        | _ => none
    | _ => none

end

/-- Model of the environment builtin `JSON.parse`: parse one value and
require only whitespace after it; `none` models the `SyntaxError` throw.
The fuel `length + 1` always suffices since every recursive step consumes
at least one character. -/
def jsonParse (l : List Char) : Option Json :=
  match parseJValue (l.length + 1) l with
  | some (v, rest) => if skipJWs rest = [] then some v else none
  | none => none

/-- Last binding of a key in an object member list — JavaScript property
semantics where a duplicate key in the JSON text overwrites the earlier
one. -/
def lookupLast (key : List Char) : List (List Char × Json) → Option Json
  | [] => none
  | (k, v) :: rest =>
    match lookupLast key rest with
    | some r => some r
    | none => if k = key then some v else none

/-- The access `payload?.sub` followed by the `typeof ... === "string"`
check: a string `sub` property of an object, `none` otherwise. -/
def jsGetSub : Json → Option (List Char)
  | Json.obj members =>
    match lookupLast ['s', 'u', 'b'] members with
    | some (Json.str s) => some s
    | _ => none
  | _ => none

/-- The `extractVendorIdFromJwt` helper of `src/unnamed/part_001:65` on
the character list of its input.  `!token` short-circuits the empty
string (and an `undefined` argument, which reaches this model as the
empty string); fewer than two `.`-separated segments yield `""`; the
try/catch around `atob`, `JSON.parse` and the `sub` projection turns
every failure into `""`. -/
def extractVendorIdFromJwtList (token : List Char) : List Char :=
  if token = [] then []
  else
    match splitOnChar '.' token with
    | _ :: p1 :: _ =>
      let base64 := replaceChar '_' '/' (replaceChar '-' '+' p1)
      match atobChars base64 with
      | some decoded =>
        match jsonParse decoded with
        | some payload =>
          match jsGetSub payload with
          | some s => s
          | none => []
        | none => []
      | none => []
    | _ => []

/-- The `extractVendorIdFromJwt` helper of `src/unnamed/part_001:65`. -/
def extractVendorIdFromJwt (token : String) : String :=
  String.mk (extractVendorIdFromJwtList token.data)

/-- The JSON text `{"sub":"V1"}` (braces written as hex escapes). -/
def subV1Json : String := "\x7b\"sub\":\"V1\"\x7d"

/-- The base64url encoding of `subV1Json`, the middle segment of the
well-formed token family of the spec. -/
def jwtPayloadB64url : String := String.mk (b64urlEncode subV1Json.data)

/-- Storage read after a best-effort removal that either succeeded or hit
an unavailable storage: nothing is left to rehydrate. -/
theorem readStorage_after_remove (s : StorageState)
    (h : s.available = false ∨ s.removeFails = false) :
    readStorage (removeStorageItem s) = ({} : JSObj) := by
  rcases h with h | h
  · simp [removeStorageItem, readStorage, h]
  · by_cases ha : s.available = false
    · simp [removeStorageItem, readStorage, ha]
    · simp [removeStorageItem, readStorage, ha, h]

/-- C8: starting from any session state, `merge({vendorId:"A"})` followed
by `merge({email:"x@y.com"})` leaves both the in-memory session value and
the value returned by the next read equal to
`{vendorId:"A", email:"x@y.com"}` — each merge shallow-merges the patch
over the current read, so fields accumulate. -/
theorem setVendorSession_accumulates (st : SessionState) :
    (setVendorSession { email := some (JSVal.str "x@y.com") }
      (setVendorSession { vendorId := some (JSVal.str "A") } st)).memory =
      { vendorId := some (JSVal.str "A"), email := some (JSVal.str "x@y.com") } ∧
    (getVendorSession (setVendorSession { email := some (JSVal.str "x@y.com") }
      (setVendorSession { vendorId := some (JSVal.str "A") } st))).1 =
      { vendorId := some (JSVal.str "A"), email := some (JSVal.str "x@y.com") } := by
  constructor <;>
    simp [setVendorSession, getVendorSession, jsSpread, overlay, fieldTruthy, JSVal.truthy]

/-- C9 (counterexample): with a non-empty durable entry and a failing
`removeItem`, `clear()` followed by `read()` does not yield `{}` — the
old durable value is rehydrated. -/
theorem clearVendorSession_removeFail_cex :
    (getVendorSession (clearVendorSession
      { memory := { vendorId := some (JSVal.str "V"), email := none },
        storage := { available := true, item := some (StoredJson.obj (some "V") none),
                     getFails := false, setFails := false, removeFails := true } })).1 =
      { vendorId := some (JSVal.str "V"), email := none } ∧
    (getVendorSession (clearVendorSession
      { memory := { vendorId := some (JSVal.str "V"), email := none },
        storage := { available := true, item := some (StoredJson.obj (some "V") none),
                     getFails := false, setFails := false, removeFails := true } })).1 ≠
      ({} : JSObj) := by
  decide

/-- C9 (amended): when the best-effort durable removal does not fail (or
storage is unavailable altogether), `clear()` resets memory and removes
the durable entry, and the subsequent `read()` yields `{}`. -/
theorem clearVendorSession_then_read (st : SessionState)
    (h : st.storage.available = false ∨ st.storage.removeFails = false) :
    (clearVendorSession st).memory = ({} : JSObj) ∧
    (getVendorSession (clearVendorSession st)).1 = ({} : JSObj) := by
  refine ⟨rfl, ?_⟩
  have hr : readStorage (removeStorageItem st.storage) = ({} : JSObj) :=
    readStorage_after_remove st.storage h
  simp [clearVendorSession, getVendorSession, fieldTruthy, hr]

/-- C9 witness: a concrete state on which the amended theorem applies. -/
theorem clearVendorSession_then_read_witness :
    (getVendorSession (clearVendorSession
      { memory := { vendorId := some (JSVal.str "V"), email := some (JSVal.str "v@w.com") },
        storage := { available := true, item := some (StoredJson.obj (some "V") none),
                     getFails := false, setFails := false, removeFails := false } })).1 =
      ({} : JSObj) :=
  (clearVendorSession_then_read
    { memory := { vendorId := some (JSVal.str "V"), email := some (JSVal.str "v@w.com") },
      storage := { available := true, item := some (StoredJson.obj (some "V") none),
                   getFails := false, setFails := false, removeFails := false } }
    (Or.inr rfl)).2

/-- C10: merging a patch whose `email` key is present but explicitly
`undefined` over a session that holds a non-empty email overwrites the
field with `undefined`: the previously stored value is erased, both in
memory and through the next read. -/
theorem setVendorSession_undefined_overwrites (st : SessionState) (e : String)
    (he : e ≠ "") (hm : st.memory.email = some (JSVal.str e)) :
    (setVendorSession { vendorId := some (JSVal.str "A"), email := some JSVal.undef }
      st).memory.email = some JSVal.undef ∧
    (getVendorSession (setVendorSession
      { vendorId := some (JSVal.str "A"), email := some JSVal.undef } st)).1.email =
      some JSVal.undef ∧
    (setVendorSession { vendorId := some (JSVal.str "A"), email := some JSVal.undef }
      st).memory.email ≠ some (JSVal.str e) := by
  refine ⟨?_, ?_, ?_⟩ <;>
    simp [setVendorSession, getVendorSession, jsSpread, overlay, fieldTruthy, JSVal.truthy]

/-- C10 witness: the erasure at a concrete prior session. -/
theorem setVendorSession_undefined_overwrites_witness :
    ("x@y.com" : String) ≠ "" ∧
    (setVendorSession { vendorId := some (JSVal.str "A"), email := some JSVal.undef }
      { memory := { vendorId := none, email := some (JSVal.str "x@y.com") },
        storage := { available := false, item := none,
                     getFails := false, setFails := false, removeFails := false } }).memory.email =
      some JSVal.undef :=
  ⟨by decide,
    (setVendorSession_undefined_overwrites
      { memory := { vendorId := none, email := some (JSVal.str "x@y.com") },
        storage := { available := false, item := none,
                     getFails := false, setFails := false, removeFails := false } }
      "x@y.com" (by decide) rfl).1⟩

/-- A `||` chain stays non-empty when its tail is non-empty. -/
theorem jsOr_ne (v : Option String) (next : String) (h : next ≠ "") :
    jsOr v next ≠ "" := by
  cases v with
  | none => exact h
  | some s =>
    by_cases hs : s = "" <;> simp [jsOr, hs, h]

/-- A truthy session field wins its `||`. -/
theorem jsFieldOr_str (v next : String) (h : v ≠ "") :
    jsFieldOr (some (JSVal.str v)) next = v := by
  simp [jsFieldOr, h]

/-- C1: any non-empty assembled hint (route parameters, then session
store, then environment default) is returned as the resolution result
with neither the backend-lookup strategy nor the cookie-decode strategy
invoked; a non-empty session `vendorId` guarantees the hint is non-empty,
and with no route parameters the hint is exactly the session value. -/
theorem dashboard_hint_short_circuits (params : DashboardParams) (session : JSObj)
    (envVendorId : Option String) (vendorEmail : String) (env : DashboardEnv) :
    (dashboardVendorId params session envVendorId ≠ "" →
      resolveDashboardVendorId (dashboardVendorId params session envVendorId) vendorEmail env =
        { result := Except.ok (dashboardVendorId params session envVendorId),
          backendInvoked := false, cookieInvoked := false }) ∧
    (∀ v, session.vendorId = some (JSVal.str v) → v ≠ "" →
      dashboardVendorId params session envVendorId ≠ "") ∧
    (params.vendor_id = none → params.vendorId = none → params.id = none →
      ∀ v, session.vendorId = some (JSVal.str v) → v ≠ "" →
        dashboardVendorId params session envVendorId = v) := by
  refine ⟨?_, ?_, ?_⟩
  · intro h
    simp [resolveDashboardVendorId, h]
  · intro v hv hne
    unfold dashboardVendorId
    rw [hv, jsFieldOr_str v _ hne]
    exact jsOr_ne _ _ (jsOr_ne _ _ (jsOr_ne _ _ hne))
  · intro h1 h2 h3 v hv hne
    unfold dashboardVendorId
    rw [h1, h2, h3, hv, jsFieldOr_str v _ hne]
    rfl

/-- C1 witness: a session-supplied vendor id at work. -/
theorem dashboard_hint_short_circuits_witness :
    resolveDashboardVendorId
      (dashboardVendorId {} { vendorId := some (JSVal.str "S"), email := none } none)
      "" { findAllVendors := Except.error "network down", cookieVendorId := "CK" } =
      { result := Except.ok (dashboardVendorId {}
          { vendorId := some (JSVal.str "S"), email := none } none),
        backendInvoked := false, cookieInvoked := false } :=
  (dashboard_hint_short_circuits {} { vendorId := some (JSVal.str "S"), email := none }
    none "" { findAllVendors := Except.error "network down", cookieVendorId := "CK" }).1
    (by decide)

/-- C2 (counterexample): with an empty hint and a backend lookup that
throws, the dashboard resolution expression yields the propagated error —
the failure is not degraded to an empty result and the cookie strategy is
never consulted. -/
theorem dashboard_backend_failure_cex :
    resolveDashboardVendorId "" "a@b.com"
      { findAllVendors := Except.error "GraphQL request failed (500)",
        cookieVendorId := "CK" } =
      { result := Except.error "GraphQL request failed (500)",
        backendInvoked := true, cookieInvoked := false } := by
  rfl

/-- C2 (amended): a network or backend failure of the dashboard's
email-lookup strategy propagates as an exception out of the resolution
expression — the cookie fallback is not consulted and the caller's outer
catch surfaces the failure message; only the login screen's
`resolveVendorIdByEmail` catches such failures and degrades them to the
empty result. -/
theorem dashboard_backend_failure_propagates :
    (∀ vendorEmail env msg, env.findAllVendors = Except.error msg →
      resolveDashboardVendorId "" vendorEmail env =
        { result := Except.error msg, backendInvoked := true, cookieInvoked := false }) ∧
    (∀ params session envVendorId env msg,
      dashboardVendorId params session envVendorId = "" →
      env.findAllVendors = Except.error msg →
      loadDashboardData params session envVendorId env = DashboardOutcome.error msg) ∧
    (∀ targetEmail graphQlUrl, resolveVendorIdByEmail targetEmail graphQlUrl none = "") ∧
    (∀ targetEmail graphQlUrl r, r.ok = false ∨ r.hasErrors = true →
      resolveVendorIdByEmail targetEmail graphQlUrl (some r) = "") := by
  refine ⟨?_, ?_, ?_, ?_⟩
  · intro vendorEmail env msg h
    simp [resolveDashboardVendorId, h]
  · intro params session envVendorId env msg h1 h2
    simp [loadDashboardData, h1, resolveDashboardVendorId, h2]
  · intro targetEmail graphQlUrl
    unfold resolveVendorIdByEmail
    split
    · rfl
    · split <;> rfl
  · intro targetEmail graphQlUrl r h
    unfold resolveVendorIdByEmail
    split
    · rfl
    · split
      · rfl
      · rcases h with h | h <;> simp [h]

/-- C2 witness: the propagation at a concrete failing environment. -/
theorem dashboard_backend_failure_propagates_witness :
    resolveDashboardVendorId "" "v@w.com"
      { findAllVendors := Except.error "Missing EXPO_PUBLIC_GRAPHQL_URL",
        cookieVendorId := "CK2" } =
      { result := Except.error "Missing EXPO_PUBLIC_GRAPHQL_URL",
        backendInvoked := true, cookieInvoked := false } :=
  dashboard_backend_failure_propagates.1 "v@w.com"
    { findAllVendors := Except.error "Missing EXPO_PUBLIC_GRAPHQL_URL",
      cookieVendorId := "CK2" } "Missing EXPO_PUBLIC_GRAPHQL_URL" rfl

/-- C3 (counterexample): the login screen of `src/unnamed/part_000`, when
its email-lookup resolution yields the empty string, surfaces no error at
all — it stores the empty vendor id in the session and navigates. -/
theorem handleLogin_empty_resolution_cex :
    handleLogin "a@b.com" "pw" (Except.ok ()) "" none =
      LoginScreenOutcome.navigated "a@b.com" "" := by
  rfl

/-- C3 (amended): in the dashboard, an all-empty resolution (empty hint,
backend lookup yielding nothing, empty cookie) surfaces exactly the
"Could not resolve vendor id for analytics." error, and a data query is
issued only with a non-empty vendor id; the login screen of part_000,
however, surfaces no error on an empty resolution — it navigates with
the empty id in the session (issuing no data query itself). -/
theorem dashboard_unresolved_surfaces_error :
    (∀ params session envVendorId env vendorsData,
      dashboardVendorId params session envVendorId = "" →
      env.findAllVendors = Except.ok vendorsData →
      loadVendorIdByEmail vendorsData (dashboardVendorEmail params session) = "" →
      env.cookieVendorId = "" →
      loadDashboardData params session envVendorId env =
        DashboardOutcome.error "Could not resolve vendor id for analytics.") ∧
    (∀ params session envVendorId env i,
      loadDashboardData params session envVendorId env = DashboardOutcome.resolved i →
      i ≠ "") ∧
    (∀ email password graphQlUrl response,
      jsTrim email ≠ "" → jsTrim password ≠ "" →
      resolveVendorIdByEmail (jsTrim email) graphQlUrl response = "" →
      handleLogin email password (Except.ok ()) graphQlUrl response =
        LoginScreenOutcome.navigated (jsTrim email) "") := by
  refine ⟨?_, ?_, ?_⟩
  · intro params session envVendorId env vendorsData h1 h2 h3 h4
    simp [loadDashboardData, h1, resolveDashboardVendorId, h2, h3, h4]
  · intro params session envVendorId env i hout
    unfold loadDashboardData at hout
    dsimp only at hout
    cases hres : (resolveDashboardVendorId (dashboardVendorId params session envVendorId)
        (dashboardVendorEmail params session) env).result with
    | error msg => rw [hres] at hout; simp at hout
    | ok id =>
      rw [hres] at hout
      by_cases hid : id = ""
      · simp [hid] at hout
      · simp [hid] at hout
        exact hout ▸ hid
  · intro email password graphQlUrl response h1 h2 h3
    simp [handleLogin, h1, h2, h3]

/-- C3 witness: the dashboard error at a concretely all-empty
environment. -/
theorem dashboard_unresolved_surfaces_error_witness :
    loadDashboardData {} {} none { findAllVendors := Except.ok none, cookieVendorId := "" } =
      DashboardOutcome.error "Could not resolve vendor id for analytics." :=
  dashboard_unresolved_surfaces_error.1 {} {} none
    { findAllVendors := Except.ok none, cookieVendorId := "" } none
    (by decide) rfl (by decide) rfl

/-- C5: with the backend returning the two-vendor list of the spec and a
case-varied target email — with or without surrounding whitespace — the
dashboard's email-matching strategy resolves to `"2"`. -/
theorem loadVendorIdByEmail_case_insensitive :
    loadVendorIdByEmail
      (some [{ id := some "1", email := some "a@b.com" },
             { id := some "2", email := some "c@d.com" }]) "C@D.COM" = "2" ∧
    loadVendorIdByEmail
      (some [{ id := some "1", email := some "a@b.com" },
             { id := some "2", email := some "c@d.com" }]) "  C@D.COM  " = "2" := by
  decide

/-- C6 (counterexample): the dashboard's list-all lookup, given the
non-empty email `"z@z.com"` that matches no vendor of the single-entry
list, still returns the first entry's id `"1"` instead of an empty
result. -/
theorem loadVendorIdByEmail_fallback_cex :
    loadVendorIdByEmail (some [{ id := some "1", email := some "a@b.com" }]) "z@z.com" = "1" ∧
    loadVendorIdByEmail (some [{ id := some "1", email := some "a@b.com" }]) "z@z.com" ≠ "" := by
  decide

/-- C6 (amended): the dashboard's list-all variant returns the first
entry's id both when no email was available and when a supplied non-empty
email matches no vendor; only the login screen's list-all variant
(part_000) yields the empty result on a failed match. -/
theorem loadVendorIdByEmail_fallback :
    (∀ vendorsData email, jsTrim email = "" →
      loadVendorIdByEmail vendorsData email =
        toText ((vendorsData.getD []).head?.bind VendorRec.id)) ∧
    (∀ vendorsData email, jsTrim email ≠ "" →
      (vendorsData.getD []).find?
        (fun vendor => jsToLowerCase (toText vendor.email) == jsToLowerCase (jsTrim email)) =
        none →
      loadVendorIdByEmail vendorsData email =
        toText ((vendorsData.getD []).head?.bind VendorRec.id)) ∧
    (∀ targetEmail graphQlUrl r,
      (r.vendors.getD []).find?
        (fun vendor =>
          match vendor.email with
          | some e => jsToLowerCase (jsTrim e) == jsToLowerCase (jsTrim targetEmail)
          | none => false) = none →
      resolveVendorIdByEmail targetEmail graphQlUrl (some r) = "") := by
  refine ⟨?_, ?_, ?_⟩
  · intro vendorsData email h
    simp [loadVendorIdByEmail, h]
  · intro vendorsData email h hfind
    unfold loadVendorIdByEmail
    dsimp only
    rw [if_neg h, hfind]
    simp [jsOrStr, toText]
  · intro targetEmail graphQlUrl r hfind
    unfold resolveVendorIdByEmail
    split
    · rfl
    · split
      · rfl
      · simp only []
        split
        · rfl
        · rw [hfind]

/-- Splitting at a separator that does not occur in the head segment
peels off exactly that segment. -/
theorem splitOnChar_sep_append (sep : Char) (h t : List Char) (hh : sep ∉ h) :
    splitOnChar sep (h ++ sep :: t) = h :: splitOnChar sep t := by
  induction h with
  | nil =>
    cases hsp : splitOnChar sep t <;> simp [splitOnChar, hsp]
  | cons c cs ih =>
    have hc : c ≠ sep := fun he => hh (by simp [he])
    have hcs : sep ∉ cs := fun he => hh (List.mem_cons_of_mem _ he)
    rw [List.cons_append]
    rw [splitOnChar, ih hcs]
    simp [hc]

/-- With at least two segments, the decoder is the base64url-fix, decode,
parse, subject-projection pipeline on the second segment. -/
theorem extractVendorIdFromJwtList_parts (token p0 p1 : List Char) (rest : List (List Char))
    (h : splitOnChar '.' token = p0 :: p1 :: rest) :
    extractVendorIdFromJwtList token =
      (match atobChars (replaceChar '_' '/' (replaceChar '-' '+' p1)) with
       | some decoded =>
         (match jsonParse decoded with
          | some payload =>
            (match jsGetSub payload with
             | some s => s
             | none => [])
          | none => [])
       | none => []) := by
  have hne : token ≠ [] := by
    intro he
    subst he
    simp [splitOnChar] at h
  unfold extractVendorIdFromJwtList
  rw [if_neg hne, h]

/-- C4: the token decoder is total on strings and returns `""` on every
failure: the empty input, fewer than two period-separated segments, a
second segment rejected by `atob` after the base64url character fix, a
decode that is not valid JSON, and a parsed payload without a string
`sub` member.  (The try/catch in the source is modelled by `atobChars`
and `jsonParse` returning `none` for the builtins' throws, so no failure
escapes.) -/
theorem extractVendorIdFromJwt_total (token : String) :
    (token = "" → extractVendorIdFromJwt token = "") ∧
    ((splitOnChar '.' token.data).length < 2 → extractVendorIdFromJwt token = "") ∧
    (∀ p0 p1 rest, splitOnChar '.' token.data = p0 :: p1 :: rest →
      (atobChars (replaceChar '_' '/' (replaceChar '-' '+' p1)) = none →
        extractVendorIdFromJwt token = "") ∧
      (∀ decoded, atobChars (replaceChar '_' '/' (replaceChar '-' '+' p1)) = some decoded →
        jsonParse decoded = none → extractVendorIdFromJwt token = "") ∧
      (∀ decoded payload,
        atobChars (replaceChar '_' '/' (replaceChar '-' '+' p1)) = some decoded →
        jsonParse decoded = some payload → jsGetSub payload = none →
        extractVendorIdFromJwt token = "")) := by
  refine ⟨?_, ?_, ?_⟩
  · intro h
    subst h
    rfl
  · intro hlen
    by_cases hd : token.data = []
    · simp [extractVendorIdFromJwt, extractVendorIdFromJwtList, hd]
    · unfold extractVendorIdFromJwt extractVendorIdFromJwtList
      rw [if_neg hd]
      cases hsp : splitOnChar '.' token.data with
      | nil => rfl
      | cons a tl =>
        cases tl with
        | nil => rfl
        | cons b tl2 =>
          rw [hsp] at hlen
          exfalso
          simp at hlen
          omega
  · intro p0 p1 rest hsplit
    refine ⟨?_, ?_, ?_⟩
    · intro hatob
      unfold extractVendorIdFromJwt
      rw [extractVendorIdFromJwtList_parts _ _ _ _ hsplit, hatob]
    · intro decoded hatob hj
      unfold extractVendorIdFromJwt
      rw [extractVendorIdFromJwtList_parts _ _ _ _ hsplit, hatob]
      dsimp only
      rw [hj]
    · intro decoded payload hatob hj hs
      unfold extractVendorIdFromJwt
      rw [extractVendorIdFromJwtList_parts _ _ _ _ hsplit, hatob]
      dsimp only
      rw [hj]
      dsimp only
      rw [hs]

/-- C4 witness: a one-segment token hits the too-few-segments case. -/
theorem extractVendorIdFromJwt_total_witness :
    (splitOnChar '.' ("abc" : String).data).length < 2 ∧ extractVendorIdFromJwt "abc" = "" :=
  ⟨by decide, (extractVendorIdFromJwt_total "abc").2.1 (by decide)⟩

/-- C7: for every token `header.base64url({"sub":"V1"}).signature` —
any header segment (no period, as segments cannot contain the separator)
and any signature — the decoder returns exactly `"V1"`. -/
theorem extractVendorIdFromJwt_wellformed (hdr sig : String) (hh : ('.' : Char) ∉ hdr.data) :
    extractVendorIdFromJwt (hdr ++ "." ++ jwtPayloadB64url ++ "." ++ sig) = "V1" := by
  have hdot : ("." : String).data = ['.'] := rfl
  have hdata : (hdr ++ "." ++ jwtPayloadB64url ++ "." ++ sig).data =
      hdr.data ++ '.' :: (jwtPayloadB64url.data ++ '.' :: sig.data) := by
    simp [String.data_append, hdot]
  have hsplit : splitOnChar '.' (hdr.data ++ '.' :: (jwtPayloadB64url.data ++ '.' :: sig.data)) =
      hdr.data :: jwtPayloadB64url.data :: splitOnChar '.' sig.data := by
    rw [splitOnChar_sep_append _ _ _ hh, splitOnChar_sep_append _ _ _ (by decide)]
  unfold extractVendorIdFromJwt
  rw [hdata, extractVendorIdFromJwtList_parts _ _ _ _ hsplit]
  rfl

/-- C7 witness: a concrete header and signature. -/
theorem extractVendorIdFromJwt_wellformed_witness :
    extractVendorIdFromJwt ("hd" ++ "." ++ jwtPayloadB64url ++ "." ++ "sig") = "V1" :=
  extractVendorIdFromJwt_wellformed "hd" "sig" (by decide)

/-- C6 witness: the first-entry fallback at a concrete unmatched email. -/
theorem loadVendorIdByEmail_fallback_witness :
    loadVendorIdByEmail (some [{ id := some "7", email := some "q@q.com" }]) "nomatch@x.com" =
      "7" :=
  (loadVendorIdByEmail_fallback.2.1 (some [{ id := some "7", email := some "q@q.com" }])
    "nomatch@x.com" (by decide) (by decide)).trans (by decide)

/-- C8 witness: the accumulation at a concrete starting state. -/
theorem setVendorSession_accumulates_witness :
    (getVendorSession (setVendorSession { email := some (JSVal.str "x@y.com") }
      (setVendorSession { vendorId := some (JSVal.str "A") }
        { memory := {},
          storage := { available := false, item := none, getFails := false,
                       setFails := false, removeFails := false } }))).1 =
      { vendorId := some (JSVal.str "A"), email := some (JSVal.str "x@y.com") } :=
  (setVendorSession_accumulates
    { memory := {},
      storage := { available := false, item := none, getFails := false,
                   setFails := false, removeFails := false } }).2
